import Mathlib

/-!
# Verification of `src/systems/physics-system.js` (PhysicsSystem)

A shallow embedding of the control-thread half of the physics
synchronization protocol: the slot registry (`uuidToIndex` /
`indexToUuid`), the transfer-buffer records, the per-tick sync loop,
body/shape lifecycle operations and the debug-rendering toggle.

JavaScript numbers are modelled by `ℚ` (exact arithmetic standing in for
IEEE doubles, matching the spec's "up to floating-point round-trip"
proviso); JS objects used as dictionaries are modelled by association
lists with JS `obj[k]` / `obj[k] = v` / `delete obj[k]` semantics;
JS `undefined` is `Option.none`; code paths that would throw a
`TypeError` return `none` from the enclosing operation.
-/

namespace PhysicsSystemModel

/-! ## Association maps (JS object dictionaries)

Observational model of a JS object used as a map with numeric keys:
`getk` is property lookup (`undefined` ↦ `none`), `setk` is property
assignment, `delk` is the `delete` operator. -/

def getk {κ α : Type} [DecidableEq κ] : List (κ × α) → κ → Option α
  | [], _ => none
  | (k', v) :: t, k => if k' = k then some v else getk t k

def delk {κ α : Type} [DecidableEq κ] : List (κ × α) → κ → List (κ × α)
  | [], _ => []
  | (k', v) :: t, k => if k' = k then delk t k else (k', v) :: delk t k

def setk {κ α : Type} [DecidableEq κ] (m : List (κ × α)) (k : κ) (v : α) :
    List (κ × α) :=
  (k, v) :: delk m k

/-! ## Linear algebra (mirrors `THREE.Matrix4` / `THREE.Quaternion`)

`Mat4` stores the sixteen entries in the mathematical row/column naming
used by three.js (`n11` = row 1, column 1); the column-major `elements`
array order of three.js is `[n11, n21, n31, n41, n12, ...]`. -/

structure Vec3 where
  x : ℚ
  y : ℚ
  z : ℚ
deriving DecidableEq, Repr

structure Quat where
  x : ℚ
  y : ℚ
  z : ℚ
  w : ℚ
deriving DecidableEq, Repr

structure Mat4 where
  n11 : ℚ
  n12 : ℚ
  n13 : ℚ
  n14 : ℚ
  n21 : ℚ
  n22 : ℚ
  n23 : ℚ
  n24 : ℚ
  n31 : ℚ
  n32 : ℚ
  n33 : ℚ
  n34 : ℚ
  n41 : ℚ
  n42 : ℚ
  n43 : ℚ
  n44 : ℚ
deriving DecidableEq, Repr

def mat4id : Mat4 :=
  ⟨1, 0, 0, 0, 0, 1, 0, 0, 0, 0, 1, 0, 0, 0, 0, 1⟩

/-- `THREE.Matrix4.multiplyMatrices a b` (matrix product `a * b`). -/
def mat4mul (a b : Mat4) : Mat4 where
  n11 := a.n11 * b.n11 + a.n12 * b.n21 + a.n13 * b.n31 + a.n14 * b.n41
  n12 := a.n11 * b.n12 + a.n12 * b.n22 + a.n13 * b.n32 + a.n14 * b.n42
  n13 := a.n11 * b.n13 + a.n12 * b.n23 + a.n13 * b.n33 + a.n14 * b.n43
  n14 := a.n11 * b.n14 + a.n12 * b.n24 + a.n13 * b.n34 + a.n14 * b.n44
  n21 := a.n21 * b.n11 + a.n22 * b.n21 + a.n23 * b.n31 + a.n24 * b.n41
  n22 := a.n21 * b.n12 + a.n22 * b.n22 + a.n23 * b.n32 + a.n24 * b.n42
  n23 := a.n21 * b.n13 + a.n22 * b.n23 + a.n23 * b.n33 + a.n24 * b.n43
  n24 := a.n21 * b.n14 + a.n22 * b.n24 + a.n23 * b.n34 + a.n24 * b.n44
  n31 := a.n31 * b.n11 + a.n32 * b.n21 + a.n33 * b.n31 + a.n34 * b.n41
  n32 := a.n31 * b.n12 + a.n32 * b.n22 + a.n33 * b.n32 + a.n34 * b.n42
  n33 := a.n31 * b.n13 + a.n32 * b.n23 + a.n33 * b.n33 + a.n34 * b.n43
  n34 := a.n31 * b.n14 + a.n32 * b.n24 + a.n33 * b.n34 + a.n34 * b.n44
  n41 := a.n41 * b.n11 + a.n42 * b.n21 + a.n43 * b.n31 + a.n44 * b.n41
  n42 := a.n41 * b.n12 + a.n42 * b.n22 + a.n43 * b.n32 + a.n44 * b.n42
  n43 := a.n41 * b.n13 + a.n42 * b.n23 + a.n43 * b.n33 + a.n44 * b.n43
  n44 := a.n41 * b.n14 + a.n42 * b.n24 + a.n43 * b.n34 + a.n44 * b.n44

/-- Determinant of a 3×3 matrix given by rows, used for the cofactors of
the 4×4 inverse. -/
def det3 (a b c d e f g h i : ℚ) : ℚ :=
  a * (e * i - f * h) - b * (d * i - f * g) + c * (d * h - e * g)

/-- `THREE.Matrix4.determinant` (Laplace expansion along the first row;
the same multilinear polynomial as the grouped form in three.js). -/
def mat4det (m : Mat4) : ℚ :=
  m.n11 * det3 m.n22 m.n23 m.n24 m.n32 m.n33 m.n34 m.n42 m.n43 m.n44
    - m.n12 * det3 m.n21 m.n23 m.n24 m.n31 m.n33 m.n34 m.n41 m.n43 m.n44
    + m.n13 * det3 m.n21 m.n22 m.n24 m.n31 m.n32 m.n34 m.n41 m.n42 m.n44
    - m.n14 * det3 m.n21 m.n22 m.n23 m.n31 m.n32 m.n33 m.n41 m.n42 m.n43

/-- `THREE.Matrix4.getInverse`: adjugate over determinant; a singular
input yields the identity (three.js warns and resets to identity when
`det === 0` and `throwOnDegenerate` is unset). -/
def mat4inverse (m : Mat4) : Mat4 :=
  let det := mat4det m
  if det = 0 then mat4id
  else
    let d := 1 / det
    { n11 := d * det3 m.n22 m.n23 m.n24 m.n32 m.n33 m.n34 m.n42 m.n43 m.n44
      n12 := -d * det3 m.n12 m.n13 m.n14 m.n32 m.n33 m.n34 m.n42 m.n43 m.n44
      n13 := d * det3 m.n12 m.n13 m.n14 m.n22 m.n23 m.n24 m.n42 m.n43 m.n44
      n14 := -d * det3 m.n12 m.n13 m.n14 m.n22 m.n23 m.n24 m.n32 m.n33 m.n34
      n21 := -d * det3 m.n21 m.n23 m.n24 m.n31 m.n33 m.n34 m.n41 m.n43 m.n44
      n22 := d * det3 m.n11 m.n13 m.n14 m.n31 m.n33 m.n34 m.n41 m.n43 m.n44
      n23 := -d * det3 m.n11 m.n13 m.n14 m.n21 m.n23 m.n24 m.n41 m.n43 m.n44
      n24 := d * det3 m.n11 m.n13 m.n14 m.n21 m.n23 m.n24 m.n31 m.n33 m.n34
      n31 := d * det3 m.n21 m.n22 m.n24 m.n31 m.n32 m.n34 m.n41 m.n42 m.n44
      n32 := -d * det3 m.n11 m.n12 m.n14 m.n31 m.n32 m.n34 m.n41 m.n42 m.n44
      n33 := d * det3 m.n11 m.n12 m.n14 m.n21 m.n22 m.n24 m.n41 m.n42 m.n44
      n34 := -d * det3 m.n11 m.n12 m.n14 m.n21 m.n22 m.n24 m.n31 m.n32 m.n34
      n41 := -d * det3 m.n21 m.n22 m.n23 m.n31 m.n32 m.n33 m.n41 m.n42 m.n43
      n42 := d * det3 m.n11 m.n12 m.n13 m.n31 m.n32 m.n33 m.n41 m.n42 m.n43
      n43 := -d * det3 m.n11 m.n12 m.n13 m.n21 m.n22 m.n23 m.n41 m.n42 m.n43
      n44 := d * det3 m.n11 m.n12 m.n13 m.n21 m.n22 m.n23 m.n31 m.n32 m.n33 }

/-- `Math.sqrt` over the rational model: exact on perfect squares (the
only inputs the theorems evaluate it on, per the spec's floating
round-trip proviso), `Nat.sqrt`-truncated otherwise, `0` on negatives. -/
def sqrtQ (q : ℚ) : ℚ :=
  if q ≤ 0 then 0 else (Nat.sqrt q.num.toNat : ℚ) / (Nat.sqrt q.den : ℚ)

/-- Length of a 3-vector, as in `THREE.Vector3.length`. -/
def vlen (x y z : ℚ) : ℚ :=
  sqrtQ (x * x + y * y + z * z)

/-- `THREE.Quaternion.setFromRotationMatrix` (the rotation part is the
upper-left 3×3 of `m`, assumed scale-free by the caller). -/
def quatFromRotationMatrix (m : Mat4) : Quat :=
  let trace := m.n11 + m.n22 + m.n33
  if 0 < trace then
    let s := (1 / 2) / sqrtQ (trace + 1)
    ⟨(m.n32 - m.n23) * s, (m.n13 - m.n31) * s, (m.n21 - m.n12) * s, (1 / 4) / s⟩
  else if m.n22 < m.n11 ∧ m.n33 < m.n11 then
    let s := 2 * sqrtQ (1 + m.n11 - m.n22 - m.n33)
    ⟨(1 / 4) * s, (m.n12 + m.n21) / s, (m.n13 + m.n31) / s, (m.n32 - m.n23) / s⟩
  else if m.n33 < m.n22 then
    let s := 2 * sqrtQ (1 + m.n22 - m.n11 - m.n33)
    ⟨(m.n12 + m.n21) / s, (1 / 4) * s, (m.n23 + m.n32) / s, (m.n13 - m.n31) / s⟩
  else
    let s := 2 * sqrtQ (1 + m.n33 - m.n11 - m.n22)
    ⟨(m.n13 + m.n31) / s, (m.n23 + m.n32) / s, (1 / 4) * s, (m.n21 - m.n12) / s⟩

/-- `THREE.Matrix4.decompose`: returns (position, quaternion, scale).
Scale factors are the column lengths (the first negated when the
determinant is negative); the rotation columns are normalized before
quaternion extraction. -/
def decomposeM (m : Mat4) : Vec3 × Quat × Vec3 :=
  let sx0 := vlen m.n11 m.n21 m.n31
  let sy := vlen m.n12 m.n22 m.n32
  let sz := vlen m.n13 m.n23 m.n33
  let sx := if mat4det m < 0 then -sx0 else sx0
  let position : Vec3 := ⟨m.n14, m.n24, m.n34⟩
  let isx := 1 / sx
  let isy := 1 / sy
  let isz := 1 / sz
  let rot : Mat4 :=
    { m with
      n11 := m.n11 * isx, n21 := m.n21 * isx, n31 := m.n31 * isx
      n12 := m.n12 * isy, n22 := m.n22 * isy, n32 := m.n32 * isy
      n13 := m.n13 * isz, n23 := m.n23 * isz, n33 := m.n33 * isz }
  (position, quatFromRotationMatrix rot, ⟨sx, sy, sz⟩)

/-- `THREE.Matrix4.compose position quaternion scale`. -/
def composeM (p : Vec3) (q : Quat) (s : Vec3) : Mat4 :=
  let x2 := q.x + q.x
  let y2 := q.y + q.y
  let z2 := q.z + q.z
  let xx := q.x * x2
  let xy := q.x * y2
  let xz := q.x * z2
  let yy := q.y * y2
  let yz := q.y * z2
  let zz := q.z * z2
  let wx := q.w * x2
  let wy := q.w * y2
  let wz := q.w * z2
  { n11 := (1 - (yy + zz)) * s.x, n21 := (xy + wz) * s.x, n31 := (xz - wy) * s.x, n41 := 0
    n12 := (xy - wz) * s.y, n22 := (1 - (xx + zz)) * s.y, n32 := (yz + wx) * s.y, n42 := 0
    n13 := (xz + wy) * s.z, n23 := (yz - wx) * s.z, n33 := (1 - (xx + yy)) * s.z, n43 := 0
    n14 := p.x, n24 := p.y, n34 := p.z, n44 := 1 }

/-! ## Data model of `PhysicsSystem` -/

/-- `CONSTANTS.TYPE` of three-ammo: the body kind strings
`"dynamic" | "static" | "kinematic"`. -/
inductive BodyType where
  | dynamic
  | static
  | kinematic
deriving DecidableEq, Repr

/-- The creation options bag; only the `type` field is read by
`PhysicsSystem` itself (`this.bodyOptions[uuid].type`, absent/falsy
defaulting to `TYPE.DYNAMIC`). -/
structure BodyOptions where
  type : Option BodyType
deriving DecidableEq, Repr

/-- `this.bodyOptions[uuid].type ? this.bodyOptions[uuid].type : TYPE.DYNAMIC`. -/
def bodyTypeOf (opts : BodyOptions) : BodyType :=
  opts.type.getD BodyType.dynamic

/-- The scene-object boundary (`object3D`): local position / quaternion /
scale, the parent's world matrix (read via `object3D.parent.matrixWorld`)
and the cached world matrix. `updateMatrices` recomputes the local matrix
from position/quaternion/scale and the world matrix from the parent. -/
structure Obj3D where
  position : Vec3
  quaternion : Quat
  scale : Vec3
  parentMatrixWorld : Mat4
  matrixWorld : Mat4
deriving DecidableEq, Repr

/-- One per-slot record of the transfer buffer (stride
`BUFFER_CONFIG.BODY_DATA_SIZE = 26` words): words 0–15 are the 4×4
matrix (floats), word 16 the linear velocity, word 17 the angular
velocity, words 18–25 the eight collision entries read through the
`Int32Array` view (each a slot index or the sentinel `-1`). -/
structure TransferRecord where
  matrix : Mat4
  linVel : ℚ
  angVel : ℚ
  coll : List ℤ
deriving DecidableEq, Repr

/-- A freshly allocated `ArrayBuffer` is zero-initialized: zero floats and
zero ints in every word. -/
def defaultRecord : TransferRecord :=
  ⟨⟨0, 0, 0, 0, 0, 0, 0, 0, 0, 0, 0, 0, 0, 0, 0, 0⟩, 0, 0, List.replicate 8 0⟩

/-- Outbound messages posted to the worker (`this.ammoWorker.postMessage`
and the `workerHelpers` fire-and-forget commands). -/
inductive OutMsg where
  | init
  | addBody (uuid : Nat)
  | updateBody (uuid : Nat)
  | removeBody (uuid : Nat)
  | addShapes (bodyUuid shapesUuid : Nat)
  | removeShapes (bodyUuid shapesUuid : Nat)
  | addConstraint (constraintId bodyUuid targetUuid : Nat)
  | removeConstraint (constraintId : Nat)
  | enableDebug (enable : Bool)
  | transferData
deriving DecidableEq, Repr

/-- The mutable state of a `PhysicsSystem` instance (its fields), plus:
`objectMatrices`/`bufferOwned` model the transfer buffer and whether its
backing `ArrayBuffer` is currently held locally (`byteLength !== 0`);
`hasSAB` models `window.SharedArrayBuffer` availability;
`debugMeshExists`/`debugMeshInScene` model `this.debugMesh` and
`this.debugMesh.parent`; `debugIndexVal` the shared atomic cursor;
`drawRange`/`needsUpdate` the debug geometry's draw range and dirty
flags; `warnings` counts `console.warn` calls; `outbox` the messages
posted to the worker. -/
structure PState where
  bodyUuids : List Nat
  uuidToIndex : List (Nat × Nat)
  indexToUuid : List (Nat × Nat)
  object3Ds : List (Nat × Obj3D)
  bodyOptions : List (Nat × BodyOptions)
  bodyLinearVelocities : List (Nat × ℚ)
  bodyAngularVelocities : List (Nat × ℚ)
  shapes : List (Nat × List Nat)
  collisions : List (Nat × List (Option Nat))
  debugRequested : Bool
  debugEnabled : Bool
  stepDuration : ℚ
  ready : Bool
  nextBodyUuid : Nat
  nextShapeUuid : Nat
  objectMatrices : List TransferRecord
  bufferOwned : Bool
  hasSAB : Bool
  debugMeshExists : Bool
  debugMeshInScene : Bool
  debugIndexVal : Nat
  drawRange : Nat
  needsUpdate : Bool
  warnings : Nat
  outbox : List OutMsg
deriving DecidableEq, Repr

/-- The state right after the constructor ran: maps empty, counters
zero, not yet ready, the `INIT` message posted — and the transfer
buffer's backing memory transferred away with it, so the buffer is *not*
locally owned until the first `TRANSFER_DATA` returns it. `hasSAB` and
the buffer contents (zeroed at allocation) are environment parameters. -/
def initState (hasSAB : Bool) (buf : List TransferRecord) : PState where
  bodyUuids := []
  uuidToIndex := []
  indexToUuid := []
  object3Ds := []
  bodyOptions := []
  bodyLinearVelocities := []
  bodyAngularVelocities := []
  shapes := []
  collisions := []
  debugRequested := false
  debugEnabled := false
  stepDuration := 0
  ready := false
  nextBodyUuid := 0
  nextShapeUuid := 0
  objectMatrices := buf
  bufferOwned := false
  hasSAB := hasSAB
  debugMeshExists := false
  debugMeshInScene := false
  debugIndexVal := 0
  drawRange := 0
  needsUpdate := false
  warnings := 0
  outbox := [OutMsg.init]

/-! ## Worker message handlers (`this.ammoWorker.onmessage`) -/

/-- `MESSAGE_TYPES.READY`: sets `this.ready` (the body/shape helper
replay is outside this model's scope — helpers are external callbacks). -/
def onReady (st : PState) : PState :=
  { st with ready := true }

/-- `MESSAGE_TYPES.BODY_READY`: unconditionally pushes the uuid onto
`bodyUuids` and records the mapping in both directions. -/
def onBodyReady (st : PState) (uuid index : Nat) : PState :=
  { st with
    bodyUuids := st.bodyUuids ++ [uuid]
    uuidToIndex := setk st.uuidToIndex uuid index
    indexToUuid := setk st.indexToUuid index uuid }

/-- `MESSAGE_TYPES.SHAPES_READY`: `this.shapes[bodyUuid].push(shapesUuid)`;
throws (`none`) when no shape list exists for `bodyUuid`. -/
def onShapesReady (st : PState) (bodyUuid shapesUuid : Nat) : Option PState :=
  match getk st.shapes bodyUuid with
  | some l => some { st with shapes := setk st.shapes bodyUuid (l ++ [shapesUuid]) }
  | none => none

/-- `MESSAGE_TYPES.TRANSFER_DATA`: re-wraps the returned buffer (ownership
comes back, `byteLength` is nonzero again) and stores the step duration. -/
def onTransferData (st : PState) (buf : List TransferRecord) (dur : ℚ) : PState :=
  { st with objectMatrices := buf, bufferOwned := true, stepDuration := dur }

/-! ## Lifecycle operations -/

/-- `addBody(object3D, options)`. -/
def addBody (st : PState) (object3D : Obj3D) (options : BodyOptions) : PState × Nat :=
  let u := st.nextBodyUuid
  ({ st with
      outbox := st.outbox ++ [OutMsg.addBody u]
      object3Ds := setk st.object3Ds u object3D
      bodyOptions := setk st.bodyOptions u options
      collisions := setk st.collisions u []
      bodyLinearVelocities := setk st.bodyLinearVelocities u 0
      bodyAngularVelocities := setk st.bodyAngularVelocities u 0
      nextBodyUuid := u + 1 }, u)

/-- `updateBody(uuid, options)`. -/
def updateBody (st : PState) (uuid : Nat) (options : BodyOptions) : PState :=
  { st with
    bodyOptions := setk st.bodyOptions uuid options
    outbox := st.outbox ++ [OutMsg.updateBody uuid] }

/-- JS `splice` after `indexOf`: remove the first occurrence, or leave the
list unchanged when absent. -/
def spliceFirst : List Nat → Nat → List Nat
  | [], _ => []
  | x :: t, u => if x = u then t else x :: spliceFirst t u

/-- `removeBody(uuid)`. Note `delete this.indexToUuid[this.uuidToIndex[uuid]]`:
when the uuid has no slot binding the inner lookup is `undefined` and the
delete touches no numeric slot key. -/
def removeBody (st : PState) (uuid : Nat) : PState :=
  let st :=
    match getk st.uuidToIndex uuid with
    | some index => { st with indexToUuid := delk st.indexToUuid index }
    | none => st
  { st with
    uuidToIndex := delk st.uuidToIndex uuid
    object3Ds := delk st.object3Ds uuid
    bodyOptions := delk st.bodyOptions uuid
    collisions := delk st.collisions uuid
    bodyLinearVelocities := delk st.bodyLinearVelocities uuid
    bodyAngularVelocities := delk st.bodyAngularVelocities uuid
    bodyUuids := spliceFirst st.bodyUuids uuid
    outbox := st.outbox ++ [OutMsg.removeBody uuid] }

/-- `addShapes(bodyUuid, mesh, options)` (the mesh scale probe has no
effect on this state). -/
def addShapes (st : PState) (bodyUuid : Nat) : PState × Nat :=
  let s := st.nextShapeUuid
  let st := { st with outbox := st.outbox ++ [OutMsg.addShapes bodyUuid s] }
  let st :=
    match getk st.shapes bodyUuid with
    | some _ => st
    | none => { st with shapes := setk st.shapes bodyUuid [] }
  let cur := (getk st.shapes bodyUuid).getD []
  ({ st with shapes := setk st.shapes bodyUuid (cur ++ [s]), nextShapeUuid := s + 1 }, s)

/-- The guard of `removeShapes` is `if (this.shapes.bodyUuid)`: it reads
the property literally named `"bodyUuid"`, not `this.shapes[bodyUuid]`.
The shapes dictionary is only ever written at numeric body-uuid keys, so
this property is always `undefined`; its lookup is modelled by that
constant value. -/
def shapesLiteralBodyUuidKey (_st : PState) : Option (List Nat) :=
  none

/-- `removeShapes(bodyUuid, shapesUuid)`. -/
def removeShapes (st : PState) (bodyUuid shapesUuid : Nat) : PState :=
  let st := { st with outbox := st.outbox ++ [OutMsg.removeShapes bodyUuid shapesUuid] }
  match shapesLiteralBodyUuidKey st with
  | some _ =>
    match getk st.shapes bodyUuid with
    | some l => { st with shapes := setk st.shapes bodyUuid (spliceFirst l shapesUuid) }
    | none => st
  | none => st

/-- `addConstraint(constraintId, bodyUuid, targetUuid, options)`. -/
def addConstraint (st : PState) (constraintId bodyUuid targetUuid : Nat) : PState :=
  { st with outbox := st.outbox ++ [OutMsg.addConstraint constraintId bodyUuid targetUuid] }

/-- `removeConstraint(constraintId)`. -/
def removeConstraint (st : PState) (constraintId : Nat) : PState :=
  { st with outbox := st.outbox ++ [OutMsg.removeConstraint constraintId] }

/-- `bodyInitialized(uuid)`: `!!this.uuidToIndex[uuid]` — double negation
of the stored slot index, so both a missing binding and a binding to the
falsy index `0` yield `false`. -/
def bodyInitialized (st : PState) (uuid : Nat) : Bool :=
  match getk st.uuidToIndex uuid with
  | some index => index ≠ 0
  | none => false

/-- `getLinearVelocity(uuid)` (`undefined` for an unknown uuid). -/
def getLinearVelocity (st : PState) (uuid : Nat) : Option ℚ :=
  getk st.bodyLinearVelocities uuid

/-- `getAngularVelocity(uuid)`. -/
def getAngularVelocity (st : PState) (uuid : Nat) : Option ℚ :=
  getk st.bodyAngularVelocities uuid

/-! ## Debug rendering toggles -/

/-- `setDebug(debug)`: records the request only. -/
def setDebug (st : PState) (debug : Bool) : PState :=
  { st with debugRequested := debug }

/-- `enableDebug()`: without `SharedArrayBuffer` support it warns and
downgrades the request; otherwise it enables debug, lazily creates the
debug mesh (with a fresh zeroed shared cursor), and on (re-)adding the
mesh to the scene hands the shared buffer to the worker. -/
def enableDebug (st : PState) : PState :=
  if !st.hasSAB then
    { st with warnings := st.warnings + 1, debugRequested := false }
  else
    let st := { st with debugEnabled := true }
    let st :=
      if !st.debugMeshExists then
        { st with debugMeshExists := true, debugIndexVal := 0 }
      else st
    if !st.debugMeshInScene then
      { st with
        debugMeshInScene := true
        outbox := st.outbox ++ [OutMsg.enableDebug true] }
    else st

/-- `disableDebug()`. -/
def disableDebug (st : PState) : PState :=
  let st := { st with debugEnabled := false }
  if st.debugMeshExists then
    { st with
      debugMeshInScene := false
      outbox := st.outbox ++ [OutMsg.enableDebug false] }
  else st

/-! ## The sync loop (`tick`) -/

/-- `this.indexToUuid[collidingIndex]` where `collidingIndex` is read from
the `Int32Array` view: slot keys are the natural numbers previously bound
by `BODY_READY`, so a negative index hits no key and yields `undefined`. -/
def lookupSlot (m : List (Nat × Nat)) (ci : ℤ) : Option Nat :=
  if 0 ≤ ci then getk m ci.toNat else none

/-- Conditional velocity write-back: `if (map.hasOwnProperty(uuid)) map[uuid] = v`. -/
def updIfPresent (m : List (Nat × ℚ)) (k : Nat) (v : ℚ) : List (Nat × ℚ) :=
  if (getk m k).isSome then setk m k v else m

/-- The body of the per-uuid loop of `tick` (lines 159–192 of the source):
resolve the slot; for a `DYNAMIC`-typed body read the slot matrix, convert
it by the inverse of the parent world matrix and decompose it onto the
object's position/quaternion (decomposed scale discarded); recompute the
object's matrices and write the world matrix back into the slot; read
back the velocity words when tracked; rebuild the collision list from the
slot's eight integer entries, pushing the (possibly `undefined`) reverse
lookup of every entry that is not the sentinel `-1`.

The JS would throw a `TypeError` (aborting the whole tick) on a uuid with
no `bodyOptions` / `object3Ds` / `collisions` entry; this is modelled by
`none`. -/
def processBody (uuid : Nat) (st : PState) : Option PState :=
  match getk st.uuidToIndex uuid, getk st.bodyOptions uuid,
      getk st.object3Ds uuid, getk st.collisions uuid with
  | some index, some opts, some obj, some _ =>
    let rec0 := st.objectMatrices.getD index defaultRecord
    let obj1 :=
      if bodyTypeOf opts = BodyType.dynamic then
        let d := decomposeM (mat4mul (mat4inverse obj.parentMatrixWorld) rec0.matrix)
        { obj with position := d.1, quaternion := d.2.1 }
      else obj
    let world := mat4mul obj1.parentMatrixWorld (composeM obj1.position obj1.quaternion obj1.scale)
    let obj2 := { obj1 with matrixWorld := world }
    let rec1 := { rec0 with matrix := world }
    some { st with
      objectMatrices := st.objectMatrices.set index rec1
      object3Ds := setk st.object3Ds uuid obj2
      bodyLinearVelocities := updIfPresent st.bodyLinearVelocities uuid rec1.linVel
      bodyAngularVelocities := updIfPresent st.bodyAngularVelocities uuid rec1.angVel
      collisions := setk st.collisions uuid
        ((rec1.coll.filter (fun ci => ci != -1)).map (fun ci => lookupSlot st.indexToUuid ci)) }
  | _, _, _, _ => none

/-- `for (let i = 0; i < this.bodyUuids.length; i++) ...`. -/
def processBodies (st : PState) : List Nat → Option PState
  | [] => some st
  | u :: rest =>
    match processBody u st with
    | some st' => processBodies st' rest
    | none => none

/-- The debug-rendering tail of `tick`: read the atomic cursor, mark the
geometry dirty when nonzero, set the draw range, reset the cursor. -/
def debugTick (st : PState) : PState :=
  let index := st.debugIndexVal
  let st := if index ≠ 0 then { st with needsUpdate := true } else st
  { st with drawRange := index, debugIndexVal := 0 }

/-- The part of `tick()` after the debug-request reconciliation: when
the transfer buffer is locally owned (`byteLength !== 0`) process every
live body and post the buffer back to the worker (relinquishing
ownership, a thrown `TypeError` propagating as `none`); then service the
debug geometry. -/
def tickBuffer (st1 : PState) : Option PState :=
  match
    (if st1.bufferOwned then
      match processBodies st1 st1.bodyUuids with
      | some st2 =>
        some { st2 with
          outbox := st2.outbox ++ [OutMsg.transferData]
          bufferOwned := false }
      | none => none
    else some st1) with
  | some st3 => some (if st3.debugEnabled then debugTick st3 else st3)
  | none => none

/-- `tick()`: no-op before `READY`; otherwise reconcile a pending debug
request against the enabled state, then run the buffer exchange and the
debug-geometry service (`tickBuffer`). -/
def tick (st : PState) : Option PState :=
  if st.ready then
    tickBuffer
      (if st.debugRequested ≠ st.debugEnabled then
        if st.debugRequested then enableDebug st else disableDebug st
      else st)
  else some st

/-- Equality of the body-simulation-visible parts of two states: the
transfer buffer, collision lists, cached velocities, scene objects,
buffer ownership, and the number of `TRANSFER_DATA` messages sent. -/
structure QuietEq (a b : PState) : Prop where
  objectMatrices : a.objectMatrices = b.objectMatrices
  collisions : a.collisions = b.collisions
  linVel : a.bodyLinearVelocities = b.bodyLinearVelocities
  angVel : a.bodyAngularVelocities = b.bodyAngularVelocities
  object3Ds : a.object3Ds = b.object3Ds
  bufferOwned : a.bufferOwned = b.bufferOwned
  transferCount : a.outbox.count OutMsg.transferData = b.outbox.count OutMsg.transferData

/-! ## Registry event sequences (for the bijection invariant) -/

/-- The two operations that mutate the handle/slot registry: an inbound
`BODY_READY` binding and a `removeBody` call. -/
inductive RegEvent where
  | bind (uuid index : Nat)
  | remove (uuid : Nat)
deriving DecidableEq, Repr

def applyEvent (st : PState) : RegEvent → PState
  | RegEvent.bind u i => onBodyReady st u i
  | RegEvent.remove u => removeBody st u

def applyEvents (st : PState) : List RegEvent → PState
  | [] => st
  | e :: rest => applyEvents (applyEvent st e) rest

/-- Protocol-conforming sequences: every `BODY_READY` carries a handle
with no current binding and a slot with no current binding (the worker
assigns each live body its own slot and never re-announces a handle). -/
def wfEvents (st : PState) : List RegEvent → Bool
  | [] => true
  | RegEvent.bind u i :: rest =>
    (getk st.uuidToIndex u).isNone && (getk st.indexToUuid i).isNone
      && wfEvents (applyEvent st (RegEvent.bind u i)) rest
  | RegEvent.remove u :: rest => wfEvents (applyEvent st (RegEvent.remove u)) rest

/-- The registry bijection: `uuidToIndex` and `indexToUuid` are mutually
inverse partial maps. -/
def RegInv (st : PState) : Prop :=
  (∀ u i, getk st.uuidToIndex u = some i → getk st.indexToUuid i = some u) ∧
  (∀ i u, getk st.indexToUuid i = some u → getk st.uuidToIndex u = some i)

/-! ## Concrete fixtures -/

/-- A scene object at the origin with identity orientation, unit scale
and an identity parent world transform. -/
def objAtOrigin : Obj3D :=
  ⟨⟨0, 0, 0⟩, ⟨0, 0, 0, 1⟩, ⟨1, 1, 1⟩, mat4id, mat4id⟩

/-- Pure translation by (1, 2, 3). -/
def mTranslate123 : Mat4 :=
  ⟨1, 0, 0, 1, 0, 1, 0, 2, 0, 0, 1, 3, 0, 0, 0, 1⟩

/-- A four-slot buffer whose slot 3 holds `mTranslate123` and a fully
sentinel collision field. -/
def cex1Buf : List TransferRecord :=
  [defaultRecord, defaultRecord, defaultRecord,
    { defaultRecord with matrix := mTranslate123, coll := List.replicate 8 (-1) }]

/-- Scenario-1 state with a *kinematic* body: handle 7 bound to slot 3,
parent identity, system ready, buffer owned, debug off. -/
def cex1State : PState :=
  { initState true cex1Buf with
    ready := true
    bufferOwned := true
    bodyUuids := [7]
    uuidToIndex := [(7, 3)]
    indexToUuid := [(3, 7)]
    object3Ds := [(7, objAtOrigin)]
    bodyOptions := [(7, ⟨some BodyType.kinematic⟩)]
    collisions := [(7, [])]
    bodyLinearVelocities := [(7, 0)]
    bodyAngularVelocities := [(7, 0)] }

/-- A buffer whose slot 3 has collision field `[-1, 9, -1, ..., -1]`:
an entry *after* the first sentinel, referring to the stale slot 9. -/
def cex2Buf : List TransferRecord :=
  [defaultRecord, defaultRecord, defaultRecord,
    { defaultRecord with coll := [-1, 9, -1, -1, -1, -1, -1, -1] }]

/-- Like `cex1State` but over `cex2Buf`. -/
def cex2State : PState :=
  { cex1State with objectMatrices := cex2Buf }

/-- Scenario-2 state: slot 3's collision field is `[5, -1, ..., -1]` and
handle 5 is bound to slot 5 (handle 5 itself not in the processed list). -/
def scen2State : PState :=
  { cex1State with
    objectMatrices :=
      [defaultRecord, defaultRecord, defaultRecord,
        { defaultRecord with coll := [5, -1, -1, -1, -1, -1, -1, -1] }]
    uuidToIndex := [(7, 3), (5, 5)]
    indexToUuid := [(3, 7), (5, 5)] }

/-- Handle 7 allocated by `addBody` but still pending (no `BODY_READY`
processed yet). -/
def c3Pending : PState :=
  (addBody { initState true [] with ready := true, nextBodyUuid := 7 }
    objAtOrigin ⟨none⟩).1

/-- Remove handle 7 while its creation is still in flight, then process
the late `BODY_READY` binding it to slot 3. -/
def c3State : PState :=
  onBodyReady (removeBody c3Pending 7) 7 3

/-! ## Helper lemmas: association maps -/

theorem getk_setk_self {κ α : Type} [DecidableEq κ] (m : List (κ × α)) (k : κ) (v : α) :
    getk (setk m k v) k = some v := by
  simp [setk, getk]

theorem getk_delk_self {κ α : Type} [DecidableEq κ] (m : List (κ × α)) (k : κ) :
    getk (delk m k) k = none := by
  induction m with
  | nil => simp [getk, delk]
  | cons p t ih =>
    simp only [delk]
    by_cases hp : p.1 = k
    · rw [if_pos hp]; exact ih
    · rw [if_neg hp, getk, if_neg hp]; exact ih

theorem getk_delk_ne {κ α : Type} [DecidableEq κ] (m : List (κ × α)) (k k' : κ)
    (h : k ≠ k') : getk (delk m k) k' = getk m k' := by
  induction m with
  | nil => simp [delk]
  | cons p t ih =>
    simp only [delk]
    by_cases hp : p.1 = k
    · rw [if_pos hp, ih, getk, if_neg (hp ▸ h)]
    · rw [if_neg hp]
      simp only [getk, ih]

theorem getk_setk_ne {κ α : Type} [DecidableEq κ] (m : List (κ × α)) (k k' : κ) (v : α)
    (h : k ≠ k') : getk (setk m k v) k' = getk m k' := by
  simp only [setk, getk, if_neg h]
  exact getk_delk_ne m k k' h

theorem delk_delk {κ α : Type} [DecidableEq κ] (m : List (κ × α)) (k : κ) :
    delk (delk m k) k = delk m k := by
  induction m with
  | nil => rfl
  | cons p t ih =>
    simp only [delk]
    by_cases hp : p.1 = k
    · rw [if_pos hp]; exact ih
    · rw [if_neg hp, delk, if_neg hp, ih]

/-! ## Helper lemmas: matrices and lists -/

theorem mat4id_mul (m : Mat4) : mat4mul mat4id m = m := by
  cases m
  simp [mat4mul, mat4id]

theorem mat4inverse_id : mat4inverse mat4id = mat4id := by
  norm_num [mat4inverse, mat4det, det3, mat4id]

theorem getD_set_self {α : Type} (l : List α) (n : Nat) (a d : α) (h : n < l.length) :
    (l.set n a).getD n d = a := by
  induction l generalizing n with
  | nil => simp at h
  | cons x t ih =>
    cases n with
    | zero => rfl
    | succ m =>
      simp only [List.set, List.getD, List.getElem?_cons_succ]
      have := ih m (by simpa using h)
      simpa [List.getD] using this

theorem spliceFirst_eq_of_not_mem (l : List Nat) (u : Nat) (h : u ∉ l) :
    spliceFirst l u = l := by
  induction l with
  | nil => rfl
  | cons x t ih =>
    simp only [List.mem_cons, not_or] at h
    rw [spliceFirst, if_neg (fun hx => h.1 hx.symm), ih h.2]

theorem not_mem_spliceFirst_of_count_le_one (l : List Nat) (u : Nat)
    (h : l.count u ≤ 1) : u ∉ spliceFirst l u := by
  induction l with
  | nil => simp [spliceFirst]
  | cons x t ih =>
    by_cases hx : x = u
    · rw [spliceFirst, if_pos hx]
      subst hx
      rw [List.count_cons_self] at h
      have : t.count x = 0 := by omega
      exact (List.count_eq_zero).1 this
    · rw [spliceFirst, if_neg hx]
      intro hmem
      rcases List.mem_cons.1 hmem with h1 | h2
      · exact hx h1.symm
      · exact ih (by rw [List.count_cons_of_ne (fun hu => hx hu.symm)] at h; exact h) h2

/-! ## Claim C3 -/

/-- C3: a late `BODY_READY` for a handle removed while still pending is
NOT ignored, contrary to the claim. With handle 7 allocated by `addBody`,
removed before the acknowledgment, and a late `BODY_READY {uuid: 7,
index: 3}` processed, the registry *does* record 7 ↦ 3 and 3 ↦ 7, handle
7 *is* pushed onto the live body list — and the next tick after the
buffer returns throws (modelled `none`) because the dead handle has no
`bodyOptions` entry, so the session is fatally affected. -/
theorem c3_theorem :
    getk c3State.uuidToIndex 7 = some 3 ∧
    getk c3State.indexToUuid 3 = some 7 ∧
    c3State.bodyUuids = [7] ∧
    getk c3State.bodyOptions 7 = none ∧
    tick (onTransferData c3State [] 0) = none := by
  decide

/-! ## Claim C4 -/

/-- C4 counterexample: the claim quantifies over *every* sequence of
`BODY_READY` bindings and `removeBody` calls, but the `BODY_READY`
handler never rejects a binding. After the sequence
`BODY_READY {7, 3}; BODY_READY {8, 3}` both handles 7 and 8 are live
(in `bodyUuids`, bound, never removed) and both map to slot 3, while
slot 3 resolves back to 8 only — the round trip for 7 fails and two
live handles share a slot. -/
theorem c4_counterexample :
    getk (onBodyReady (onBodyReady (initState true []) 7 3) 8 3).uuidToIndex 7 = some 3 ∧
    getk (onBodyReady (onBodyReady (initState true []) 7 3) 8 3).uuidToIndex 8 = some 3 ∧
    7 ∈ (onBodyReady (onBodyReady (initState true []) 7 3) 8 3).bodyUuids ∧
    8 ∈ (onBodyReady (onBodyReady (initState true []) 7 3) 8 3).bodyUuids ∧
    getk (onBodyReady (onBodyReady (initState true []) 7 3) 8 3).indexToUuid 3 ≠ some 7 := by
  decide

theorem regInv_bind (st : PState) (u i : Nat) (h : RegInv st)
    (hu : getk st.uuidToIndex u = none) (hi : getk st.indexToUuid i = none) :
    RegInv (onBodyReady st u i) := by
  obtain ⟨hf, hb⟩ := h
  constructor
  · intro u' i' hget
    simp only [onBodyReady] at hget ⊢
    by_cases huu : u = u'
    · subst huu
      rw [getk_setk_self] at hget
      obtain rfl : i = i' := by injection hget
      exact getk_setk_self _ _ _
    · rw [getk_setk_ne _ _ _ _ huu] at hget
      have hI := hf u' i' hget
      have hii : i ≠ i' := by
        intro hEq
        rw [hEq] at hi
        rw [hi] at hI
        exact Option.noConfusion hI
      rw [getk_setk_ne _ _ _ _ hii]
      exact hI
  · intro i' u' hget
    simp only [onBodyReady] at hget ⊢
    by_cases hii : i = i'
    · subst hii
      rw [getk_setk_self] at hget
      obtain rfl : u = u' := by injection hget
      exact getk_setk_self _ _ _
    · rw [getk_setk_ne _ _ _ _ hii] at hget
      have hU := hb i' u' hget
      have huu : u ≠ u' := by
        intro hEq
        rw [hEq] at hu
        rw [hu] at hU
        exact Option.noConfusion hU
      rw [getk_setk_ne _ _ _ _ huu]
      exact hU

theorem regInv_remove (st : PState) (u : Nat) (h : RegInv st) :
    RegInv (removeBody st u) := by
  obtain ⟨hf, hb⟩ := h
  unfold removeBody
  cases hU : getk st.uuidToIndex u with
  | some idx =>
    simp only [hU]
    constructor
    · intro u' i' hget
      simp only at hget ⊢
      have huu : u ≠ u' := by
        intro hEq
        rw [← hEq, getk_delk_self] at hget
        exact Option.noConfusion hget
      rw [getk_delk_ne _ _ _ huu] at hget
      have hI := hf u' i' hget
      have hii : idx ≠ i' := by
        intro hEq
        have hIdx := hf u idx hU
        rw [hEq] at hIdx
        rw [hIdx] at hI
        obtain rfl : u = u' := by injection hI
        exact huu rfl
      rw [getk_delk_ne _ _ _ hii]
      exact hI
    · intro i' u' hget
      simp only at hget ⊢
      have hii : idx ≠ i' := by
        intro hEq
        rw [← hEq, getk_delk_self] at hget
        exact Option.noConfusion hget
      rw [getk_delk_ne _ _ _ hii] at hget
      have hU' := hb i' u' hget
      have huu : u ≠ u' := by
        intro hEq
        rw [← hEq] at hU'
        rw [hU] at hU'
        obtain rfl : idx = i' := by injection hU'
        exact hii rfl
      rw [getk_delk_ne _ _ _ huu]
      exact hU'
  | none =>
    simp only [hU]
    constructor
    · intro u' i' hget
      simp only at hget ⊢
      have huu : u ≠ u' := by
        intro hEq
        rw [← hEq, getk_delk_self] at hget
        exact Option.noConfusion hget
      rw [getk_delk_ne _ _ _ huu] at hget
      exact hf u' i' hget
    · intro i' u' hget
      simp only at hget ⊢
      have hU' := hb i' u' hget
      have huu : u ≠ u' := by
        intro hEq
        rw [← hEq] at hU'
        rw [hU] at hU'
        exact Option.noConfusion hU'
      rw [getk_delk_ne _ _ _ huu]
      exact hU'

theorem regInv_init : RegInv (initState true []) := by
  constructor
  · intro u i h
    simp [initState, getk] at h
  · intro i u h
    simp [initState, getk] at h

/-- C4 (amended): along any *protocol-conforming* sequence of
`BODY_READY` bindings and `removeBody` calls — each binding carrying a
handle and a slot with no current binding — the two registry maps stay
mutually inverse: every live handle's slot resolves back to that handle
and no two live handles share a slot. (The unrestricted claim fails:
see the counterexample.) -/
theorem c4_theorem (st : PState) (evs : List RegEvent) (h0 : RegInv st)
    (hwf : wfEvents st evs = true) : RegInv (applyEvents st evs) := by
  induction evs generalizing st with
  | nil => exact h0
  | cons e rest ih =>
    cases e with
    | bind u i =>
      rw [wfEvents, Bool.and_eq_true, Bool.and_eq_true] at hwf
      obtain ⟨⟨hu, hi⟩, hrest⟩ := hwf
      rw [Option.isNone_iff_eq_none] at hu hi
      exact ih _ (regInv_bind st u i h0 hu hi) hrest
    | remove u =>
      rw [wfEvents] at hwf
      exact ih _ (regInv_remove st u h0) hwf

/-- Witness for C4: the sequence bind 7↦3, bind 5↦5, remove 7, bind 9↦3
(slot 3 reused after the removal) is protocol-conforming, and the
bijection holds afterwards. -/
theorem c4_witness :
    wfEvents (initState true [])
        [RegEvent.bind 7 3, RegEvent.bind 5 5, RegEvent.remove 7, RegEvent.bind 9 3] = true ∧
    RegInv (applyEvents (initState true [])
        [RegEvent.bind 7 3, RegEvent.bind 5 5, RegEvent.remove 7, RegEvent.bind 9 3]) :=
  ⟨by decide, c4_theorem (initState true []) _ regInv_init (by decide)⟩

/-! ## Claim C5 -/

/-- C5: `removeShapes` never removes the shape handle from the local
list. The guard on line 260 reads `this.shapes.bodyUuid` — the property
literally named `"bodyUuid"`, which is never assigned — instead of
`this.shapes[bodyUuid]`, so the splice branch is dead code. After
`addShapes` for body 1 (returning shape handle 0) and
`removeShapes(1, 0)`, shape 0 is still listed for body 1, although the
claim (and the spec's identity-match removal) requires it gone. -/
theorem c5_theorem :
    getk (removeShapes (addShapes (initState true []) 1).1 1 0).shapes 1 = some [0] := by
  decide

/-! ## Claim C6 -/

/-- C6 counterexample: a handle bound to slot 0 is live, yet
`bodyInitialized` reports `false`, because `!!this.uuidToIndex[uuid]`
treats the stored index 0 as falsy. -/
theorem c6_counterexample :
    getk (onBodyReady (initState true []) 7 0).uuidToIndex 7 = some 0 ∧
    bodyInitialized (onBodyReady (initState true []) 7 0) 7 = false := by
  decide

/-- C6 (amended): `bodyInitialized(h)` is true iff h is currently bound
to a *nonzero* slot. A handle bound to slot 0 is misclassified as
uninitialized; the falsy sentinel is the slot value, not the handle
value (a handle equal to 0 bound to a nonzero slot is reported
correctly). -/
theorem c6_theorem (st : PState) (uuid : Nat) :
    bodyInitialized st uuid = true ↔
      ∃ i, getk st.uuidToIndex uuid = some i ∧ i ≠ 0 := by
  unfold bodyInitialized
  cases h : getk st.uuidToIndex uuid with
  | none => simp
  | some i => simp [h]

/-! ## Claim C8 -/

/-- C8: `removeBody` is idempotent on the registry. A second call for
the same handle (or a call for a never-bound, still-pending handle —
covered because the theorem quantifies over every state, including ones
where the handle has no binding) raises no error (the model is total
exactly because every JS step of `removeBody` is non-throwing) and
leaves every registry map — handle↦slot, slot↦handle, live list, and the
per-body object/option/collision/velocity/shape maps — exactly as the
first call left them. The hypothesis (the handle is not enrolled twice
in the live list) holds in every state reachable without a duplicate
`BODY_READY` for the same handle. -/
theorem c8_theorem (st : PState) (uuid : Nat) (h : st.bodyUuids.count uuid ≤ 1) :
    (removeBody (removeBody st uuid) uuid).uuidToIndex = (removeBody st uuid).uuidToIndex ∧
    (removeBody (removeBody st uuid) uuid).indexToUuid = (removeBody st uuid).indexToUuid ∧
    (removeBody (removeBody st uuid) uuid).bodyUuids = (removeBody st uuid).bodyUuids ∧
    (removeBody (removeBody st uuid) uuid).object3Ds = (removeBody st uuid).object3Ds ∧
    (removeBody (removeBody st uuid) uuid).bodyOptions = (removeBody st uuid).bodyOptions ∧
    (removeBody (removeBody st uuid) uuid).collisions = (removeBody st uuid).collisions ∧
    (removeBody (removeBody st uuid) uuid).bodyLinearVelocities
      = (removeBody st uuid).bodyLinearVelocities ∧
    (removeBody (removeBody st uuid) uuid).bodyAngularVelocities
      = (removeBody st uuid).bodyAngularVelocities ∧
    (removeBody (removeBody st uuid) uuid).shapes = (removeBody st uuid).shapes := by
  have hfields : ∀ s : PState,
      (removeBody s uuid).uuidToIndex = delk s.uuidToIndex uuid ∧
      (removeBody s uuid).bodyUuids = spliceFirst s.bodyUuids uuid ∧
      (removeBody s uuid).object3Ds = delk s.object3Ds uuid ∧
      (removeBody s uuid).bodyOptions = delk s.bodyOptions uuid ∧
      (removeBody s uuid).collisions = delk s.collisions uuid ∧
      (removeBody s uuid).bodyLinearVelocities = delk s.bodyLinearVelocities uuid ∧
      (removeBody s uuid).bodyAngularVelocities = delk s.bodyAngularVelocities uuid ∧
      (removeBody s uuid).shapes = s.shapes := by
    intro s
    unfold removeBody
    cases hU : getk s.uuidToIndex uuid <;> simp [hU]
  have hidx : ∀ s : PState, getk s.uuidToIndex uuid = none →
      (removeBody s uuid).indexToUuid = s.indexToUuid := by
    intro s hU
    unfold removeBody
    rw [hU]
  have hnone : getk (removeBody st uuid).uuidToIndex uuid = none := by
    rw [(hfields st).1]; exact getk_delk_self _ _
  obtain ⟨h1, h2, h3, h4, h5, h6, h7, h8⟩ := hfields st
  obtain ⟨g1, g2, g3, g4, g5, g6, g7, g8⟩ := hfields (removeBody st uuid)
  refine ⟨?_, hidx _ hnone, ?_, ?_, ?_, ?_, ?_, ?_, ?_⟩
  · rw [g1, h1, delk_delk]
  · rw [g2, h2]
    exact spliceFirst_eq_of_not_mem _ _ (not_mem_spliceFirst_of_count_le_one _ _ h)
  · rw [g3, h3, delk_delk]
  · rw [g4, h4, delk_delk]
  · rw [g5, h5, delk_delk]
  · rw [g6, h6, delk_delk]
  · rw [g7, h7, delk_delk]
  · rw [g8, h8]

/-- Witness for C8 at a concrete state: one live body with handle 7. -/
theorem c8_witness :
    (onBodyReady (initState true []) 7 3).bodyUuids.count 7 ≤ 1 ∧
    (removeBody (removeBody (onBodyReady (initState true []) 7 3) 7) 7).uuidToIndex
      = (removeBody (onBodyReady (initState true []) 7 3) 7).uuidToIndex :=
  ⟨by decide, (c8_theorem (onBodyReady (initState true []) 7 3) 7 (by decide)).1⟩

/-! ## Claim C10 -/

/-- C10: `setDebug` mutates only the `debugRequested` field — the scene
graph, `debugEnabled` and all worker-facing state are untouched — and
while the system is not yet ready a tick changes nothing at all, so the
enable/disable action can only happen at the first tick that runs after
readiness. -/
theorem c10_theorem (st : PState) (debug : Bool) :
    setDebug st debug = { st with debugRequested := debug } ∧
    (st.ready = false → tick (setDebug st debug) = some (setDebug st debug)) := by
  refine ⟨rfl, fun h => ?_⟩
  unfold tick
  simp [setDebug, h]

/-- Witness for C10: a not-yet-ready system with a pending enable
request is left untouched by `tick`. -/
theorem c10_witness :
    tick (setDebug (initState true []) true) = some (setDebug (initState true []) true) :=
  (c10_theorem (initState true []) true).2 rfl

/-! ## Claim C7 -/

theorem quietEq_refl (st : PState) : QuietEq st st :=
  ⟨rfl, rfl, rfl, rfl, rfl, rfl, rfl⟩

theorem quietEq_trans {a b c : PState} (h1 : QuietEq a b) (h2 : QuietEq b c) :
    QuietEq a c := by
  obtain ⟨x1, x2, x3, x4, x5, x6, x7⟩ := h1
  obtain ⟨y1, y2, y3, y4, y5, y6, y7⟩ := h2
  exact ⟨x1.trans y1, x2.trans y2, x3.trans y3, x4.trans y4, x5.trans y5,
    x6.trans y6, x7.trans y7⟩

theorem count_transfer_append_enable (l : List OutMsg) (b : Bool) :
    (l ++ [OutMsg.enableDebug b]).count OutMsg.transferData
      = l.count OutMsg.transferData := by
  simp [List.count_append]

theorem quiet_enableDebug (st : PState) : QuietEq (enableDebug st) st := by
  unfold enableDebug
  split
  · exact ⟨rfl, rfl, rfl, rfl, rfl, rfl, rfl⟩
  · dsimp only
    split <;> split <;>
      exact ⟨rfl, rfl, rfl, rfl, rfl, rfl, by simp [List.count_append]⟩

theorem quiet_disableDebug (st : PState) : QuietEq (disableDebug st) st := by
  unfold disableDebug
  dsimp only
  split
  · exact ⟨rfl, rfl, rfl, rfl, rfl, rfl, by simp [List.count_append]⟩
  · exact ⟨rfl, rfl, rfl, rfl, rfl, rfl, rfl⟩

theorem quiet_debugTick (st : PState) : QuietEq (debugTick st) st := by
  unfold debugTick
  dsimp only
  split <;> exact ⟨rfl, rfl, rfl, rfl, rfl, rfl, rfl⟩

/-- C7: a tick that runs while the transfer buffer is not locally owned
(backing `byteLength` is 0) performs the whole-buffer skip: it leaves the
buffer contents, every body's collision list, the cached linear/angular
velocities and the scene objects unchanged, still does not own the
buffer afterwards, and posts no `TRANSFER_DATA` message — the missed
exchange is simply dropped. (Only debug-rendering state may change.) -/
theorem c7_theorem (st : PState) (h : st.bufferOwned = false) :
    ∃ st', tick st = some st' ∧ QuietEq st' st := by
  unfold tick
  by_cases hr : st.ready
  · rw [if_pos hr]
    have hq1 : QuietEq
        (if st.debugRequested ≠ st.debugEnabled then
          if st.debugRequested then enableDebug st else disableDebug st
        else st) st := by
      split
      · split
        · exact quiet_enableDebug st
        · exact quiet_disableDebug st
      · exact quietEq_refl st
    generalize hg : (if st.debugRequested ≠ st.debugEnabled then
        if st.debugRequested then enableDebug st else disableDebug st
      else st) = st1 at hq1
    have hb1 : st1.bufferOwned = false := hq1.bufferOwned.trans h
    unfold tickBuffer
    rw [hb1]
    simp only [Bool.false_eq_true, if_false]
    refine ⟨_, rfl, ?_⟩
    split
    · exact quietEq_trans (quiet_debugTick st1) hq1
    · exact hq1
  · rw [if_neg hr]
    exact ⟨st, rfl, quietEq_refl st⟩

/-- Witness for C7: a ready system whose buffer is in flight. -/
theorem c7_witness :
    ∃ st', tick { initState true [] with ready := true, bufferOwned := false } = some st' ∧
      QuietEq st' { initState true [] with ready := true, bufferOwned := false } :=
  c7_theorem _ rfl

/-! ## Claim C9 -/

/-- C9: requesting debug rendering in an environment without
`SharedArrayBuffer` support degrades gracefully. `enableDebug` does not
throw (it is total): it only resets the pending request flag and emits
one warning, leaving `debugEnabled` (and everything else — scene graph,
worker-facing debug state) untouched; and a ready tick in that situation
behaves exactly like a tick with no pending request apart from that
warning — body simulation is unaffected. -/
theorem c9_theorem (st : PState) (hsab : st.hasSAB = false)
    (hreq : st.debugRequested = true) (hen : st.debugEnabled = false)
    (hr : st.ready = true) :
    enableDebug st = { st with debugRequested := false, warnings := st.warnings + 1 } ∧
    tick st = tick { st with debugRequested := false, warnings := st.warnings + 1 } := by
  have hA : enableDebug st
      = { st with debugRequested := false, warnings := st.warnings + 1 } := by
    unfold enableDebug
    rw [hsab]
    rfl
  refine ⟨hA, ?_⟩
  unfold tick
  rw [if_pos hr, if_pos (by rw [hreq, hen]; simp), if_pos (by rw [hreq]), hA]
  have hB : ({ st with debugRequested := false, warnings := st.warnings + 1 } : PState).ready = true := hr
  have hC : ¬(({ st with debugRequested := false, warnings := st.warnings + 1 } : PState).debugRequested ≠ ({ st with debugRequested := false, warnings := st.warnings + 1 } : PState).debugEnabled) := by
    simp [hen]
  rw [if_pos hB, if_neg hC]

/-- Witness for C9: a ready system without shared-memory support and a
pending debug request. -/
theorem c9_witness :
    enableDebug { initState false [] with ready := true, debugRequested := true }
      = { initState false [] with ready := true, debugRequested := false, warnings := 1 } ∧
    tick { initState false [] with ready := true, debugRequested := true }
      = tick { initState false [] with ready := true, debugRequested := false, warnings := 1 } :=
  c9_theorem _ rfl rfl rfl rfl

/-! ## Helper lemmas: concrete transform arithmetic -/

theorem sqrtQ_one : sqrtQ 1 = 1 := by
  norm_num [sqrtQ, show Int.toNat 1 = 1 by decide]

theorem sqrtQ_four : sqrtQ 4 = 2 := by
  norm_num [sqrtQ, show Int.toNat 4 = 4 by decide]

theorem composeM_origin : composeM ⟨0, 0, 0⟩ ⟨0, 0, 0, 1⟩ ⟨1, 1, 1⟩ = mat4id := by
  norm_num [composeM, mat4id]

theorem composeM_translate123 :
    composeM ⟨1, 2, 3⟩ ⟨0, 0, 0, 1⟩ ⟨1, 1, 1⟩ = mTranslate123 := by
  norm_num [composeM, mTranslate123]

theorem decomposeM_translate123 :
    decomposeM mTranslate123 = (⟨1, 2, 3⟩, ⟨0, 0, 0, 1⟩, ⟨1, 1, 1⟩) := by
  norm_num [decomposeM, mTranslate123, vlen, quatFromRotationMatrix, mat4det, det3,
    sqrtQ_one, sqrtQ_four]

/-! ## Claim C1 -/

/-- C1 counterexample: Scenario 1 as claimed, but with the
externally-driven (kinematic) body the claim quantifies over. Handle 7
is bound to slot 3, slot 3 holds the written transform translate(1,2,3),
the parent world transform is the identity — yet after one tick the
object's local pose is unchanged at the origin, not the written
transform: the read-convert-apply path runs for `TYPE.DYNAMIC` bodies
only (line 164), not for kinematic/static ones as the claim states. -/
theorem c1_counterexample :
    (tick cex1State).map (fun s => (getk s.object3Ds 7).map (fun o => (o.position, o.quaternion)))
      = some (some (⟨0, 0, 0⟩, ⟨0, 0, 0, 1⟩)) ∧
    (tick cex1State).map (fun s => (getk s.object3Ds 7).map (fun o => (o.position, o.quaternion)))
      ≠ some (some (⟨1, 2, 3⟩, ⟨0, 0, 0, 1⟩)) := by
  constructor
  · norm_num [tick, tickBuffer, processBodies, processBody, cex1State, initState,
      cex1Buf, defaultRecord, objAtOrigin, mTranslate123, getk, setk, delk, bodyTypeOf,
      updIfPresent, lookupSlot, debugTick, composeM_origin, mat4id_mul, List.getD,
      show BodyType.kinematic ≠ BodyType.dynamic by decide]
  · norm_num [tick, tickBuffer, processBodies, processBody, cex1State, initState,
      cex1Buf, defaultRecord, objAtOrigin, mTranslate123, getk, setk, delk, bodyTypeOf,
      updIfPresent, lookupSlot, debugTick, composeM_origin, mat4id_mul, List.getD,
      show BodyType.kinematic ≠ BodyType.dynamic by decide]

/-- C1 (amended): the slot-to-object transform application runs for
bodies whose kind is *dynamic* (the `type` option equal to
`TYPE.DYNAMIC`, or absent, the default) — it is the simulation-driven
pose that is read back, while kinematic/static bodies skip it and only
have their authoritative world transform written *into* the slot. For a
dynamic body bound to a slot whose parent has the identity world
transform, one tick sets the object's local position/orientation to the
decomposition of the slot's matrix (decomposed scale not reapplied), so
when that decomposition recomposes with the object's scale to the slot
matrix `M` (exact round-trip), the object's local transform equals `M`,
which is also written back into the slot. -/
theorem c1_theorem (st : PState) (uuid index : Nat) (opts : BodyOptions)
    (obj : Obj3D) (M : Mat4) (cl : List (Option Nat))
    (hready : st.ready = true) (howned : st.bufferOwned = true)
    (hdbgR : st.debugRequested = false) (hdbgE : st.debugEnabled = false)
    (hlist : st.bodyUuids = [uuid])
    (hidx : getk st.uuidToIndex uuid = some index)
    (hopts : getk st.bodyOptions uuid = some opts)
    (hdyn : bodyTypeOf opts = BodyType.dynamic)
    (hobj : getk st.object3Ds uuid = some obj)
    (hcl : getk st.collisions uuid = some cl)
    (hparent : obj.parentMatrixWorld = mat4id)
    (hM : (st.objectMatrices.getD index defaultRecord).matrix = M)
    (hrt : composeM (decomposeM M).1 (decomposeM M).2.1 obj.scale = M)
    (hlen : index < st.objectMatrices.length) :
    ∃ st', tick st = some st' ∧
      getk st'.object3Ds uuid = some { obj with
        position := (decomposeM M).1
        quaternion := (decomposeM M).2.1
        matrixWorld := M } ∧
      (st'.objectMatrices.getD index defaultRecord).matrix = M := by
  have hdbg : ¬(st.debugRequested ≠ st.debugEnabled) := by
    rw [hdbgR, hdbgE]
    simp
  unfold tick
  rw [if_pos hready, if_neg hdbg]
  unfold tickBuffer
  rw [hlist, if_pos howned]
  unfold processBodies processBody
  rw [hidx, hopts, hobj, hcl]
  simp only [hdyn, ite_true, ite_false, hparent, mat4inverse_id, mat4id_mul, hM, hrt,
    processBodies, hdbgE, Bool.false_eq_true, if_false]
  refine ⟨_, rfl, ?_, ?_⟩
  · simp only [getk_setk_self]
  · simp only [getD_set_self _ _ _ _ hlen]

/-- Witness for C1 at Scenario 1 with a dynamic body (absent `type`
option, which defaults to dynamic): the slot transform translate(1,2,3)
lands exactly on the object's local transform. -/
theorem c1_witness :
    ∃ st', tick { cex1State with bodyOptions := [(7, ⟨none⟩)] } = some st' ∧
      getk st'.object3Ds 7 = some { objAtOrigin with
        position := (decomposeM mTranslate123).1
        quaternion := (decomposeM mTranslate123).2.1
        matrixWorld := mTranslate123 } ∧
      (st'.objectMatrices.getD 3 defaultRecord).matrix = mTranslate123 :=
  c1_theorem { cex1State with bodyOptions := [(7, ⟨none⟩)] } 7 3 ⟨none⟩ objAtOrigin
    mTranslate123 [] rfl rfl rfl rfl rfl rfl rfl rfl rfl rfl rfl rfl
    (by rw [decomposeM_translate123]; exact composeM_translate123) (by decide)

/-! ## Claim C2 -/

/-- C2 counterexample: slot 3's collision field is
`[-1, 9, -1, ..., -1]` with slot 9 stale (bound to no handle). The
claimed scan — halt at the first sentinel, skip stale entries — would
leave handle 7's collision list empty; the code instead scans the whole
field, skipping only the `-1` entries themselves, and *appends* the
undefined reverse lookup of the stale slot 9, producing `[undefined]`
(modelled `[none]`). -/
theorem c2_counterexample :
    (tick cex2State).map (fun s => getk s.collisions 7) = some (some [none]) ∧
    (tick cex2State).map (fun s => getk s.collisions 7) ≠ some (some []) := by
  constructor
  · norm_num [tick, tickBuffer, processBodies, processBody, cex2State, cex1State,
      initState, cex2Buf, defaultRecord, objAtOrigin, getk, setk, delk, bodyTypeOf,
      updIfPresent, lookupSlot, debugTick, composeM_origin, mat4id_mul, List.getD,
      show BodyType.kinematic ≠ BodyType.dynamic by decide,
      show Int.toNat 9 = 9 by decide]
  · norm_num [tick, tickBuffer, processBodies, processBody, cex2State, cex1State,
      initState, cex2Buf, defaultRecord, objAtOrigin, getk, setk, delk, bodyTypeOf,
      updIfPresent, lookupSlot, debugTick, composeM_origin, mat4id_mul, List.getD,
      show BodyType.kinematic ≠ BodyType.dynamic by decide,
      show Int.toNat 9 = 9 by decide]

/-- C2 (amended): each tick first discards the handle's previous
collision list, then rebuilds it by scanning *all* entries of the slot's
collision field (words 18–25), filtering out every sentinel `-1` entry
(rather than halting at the first one) and appending, for each remaining
entry, the registry's reverse lookup of that slot — which is the bound
handle for a live slot and `undefined` (`none`) for a stale one, the
stale entry being appended rather than skipped. In particular, for the
field `[5, -1, ..., -1]` with slot 5 bound to handle 5 the rebuilt list
is exactly the singleton `[handle 5]`. -/
theorem c2_theorem (st : PState) (uuid index : Nat) (opts : BodyOptions)
    (obj : Obj3D) (cl : List (Option Nat))
    (hready : st.ready = true) (howned : st.bufferOwned = true)
    (hdbgR : st.debugRequested = false) (hdbgE : st.debugEnabled = false)
    (hlist : st.bodyUuids = [uuid])
    (hidx : getk st.uuidToIndex uuid = some index)
    (hopts : getk st.bodyOptions uuid = some opts)
    (hobj : getk st.object3Ds uuid = some obj)
    (hcl : getk st.collisions uuid = some cl) :
    ∃ st', tick st = some st' ∧
      getk st'.collisions uuid =
        some (((st.objectMatrices.getD index defaultRecord).coll.filter
            (fun ci => ci != -1)).map (fun ci => lookupSlot st.indexToUuid ci)) := by
  have hdbg : ¬(st.debugRequested ≠ st.debugEnabled) := by
    rw [hdbgR, hdbgE]
    simp
  unfold tick
  rw [if_pos hready, if_neg hdbg]
  unfold tickBuffer
  rw [hlist, if_pos howned]
  unfold processBodies processBody
  rw [hidx, hopts, hobj, hcl]
  by_cases hty : bodyTypeOf opts = BodyType.dynamic
  · simp only [hty, if_pos rfl, processBodies, hdbgE, Bool.false_eq_true, if_false]
    refine ⟨_, rfl, ?_⟩
    simp only [getk_setk_self]
  · simp only [if_neg hty, processBodies, hdbgE, Bool.false_eq_true, if_false]
    refine ⟨_, rfl, ?_⟩
    simp only [getk_setk_self]

/-- Witness for C2 at Scenario 2: the collision field `[5, -1, ..., -1]`
with handle 5 bound to slot 5 rebuilds handle 7's list to exactly
`[handle 5]`. -/
theorem c2_witness :
    (((scen2State.objectMatrices.getD 3 defaultRecord).coll.filter
        (fun ci => ci != -1)).map (fun ci => lookupSlot scen2State.indexToUuid ci))
      = [some 5] ∧
    (∃ st', tick scen2State = some st' ∧
      getk st'.collisions 7 =
        some (((scen2State.objectMatrices.getD 3 defaultRecord).coll.filter
            (fun ci => ci != -1)).map (fun ci => lookupSlot scen2State.indexToUuid ci))) :=
  ⟨by decide,
    c2_theorem scen2State 7 3 ⟨some BodyType.kinematic⟩ objAtOrigin []
      rfl rfl rfl rfl rfl rfl rfl rfl rfl⟩

end PhysicsSystemModel
